import Mathlib

/-
Verification of the Google Drive API client pipeline (`src/client.ts`) and the
tool facades of this repository.  The TypeScript source is shallowly embedded:
JavaScript objects that cross the JSON boundary are modelled by the `Json`
inductive below, `JSON.stringify` by `renderJson`, `JSON.parse` by `parseJson`
(a fuel-indexed recursive-descent parser over the compact integer fragment of
JSON: no whitespace between tokens and no fractional or exponent number
literals, which is all the client ever produces), and JavaScript truthiness by
the `jsTruthy`/`optStrTruthy` family.  The HTTP boundary (`fetch`) is modelled
by passing the remote `HttpResponse` as an explicit argument and returning the
list of URLs fetched, so "zero network calls" is the statement that this list
is empty.
-/

set_option maxHeartbeats 1000000

namespace GDrive

/-- A JavaScript value on the JSON boundary.  Numbers are restricted to
integers: the client never produces fractional literals, and no property we
verify depends on them. -/
inductive Json where
  | null
  | bool (b : Bool)
  | num (n : Int)
  | str (s : String)
  | arr (elems : List Json)
  | obj (members : List (String × Json))
deriving Inhabited

/-- Lower-case hexadecimal digit, as emitted by `JSON.stringify` in `\u00xx`
escapes. -/
def hexDigit (n : Nat) : Char :=
  if n < 10 then Char.ofNat (48 + n) else Char.ofNat (87 + n)

/-- How `JSON.stringify` escapes a single character inside a string literal:
quote and backslash get a backslash, the named control characters get their
short escapes, all other control characters become `\u00xx`. -/
def escapeChar (c : Char) : List Char :=
  if c = '"' then ['\\', '"']
  else if c = '\\' then ['\\', '\\']
  else if c = '\x08' then ['\\', 'b']
  else if c = '\t' then ['\\', 't']
  else if c = '\n' then ['\\', 'n']
  else if c = '\x0c' then ['\\', 'f']
  else if c = '\r' then ['\\', 'r']
  else if c.toNat < 32 then
    ['\\', 'u', '0', '0', hexDigit (c.toNat / 16), hexDigit (c.toNat % 16)]
  else [c]

/-- Escape every character of a string body. -/
def escapeChars : List Char → List Char
  | [] => []
  | c :: cs => escapeChar c ++ escapeChars cs

mutual

/-- `JSON.stringify`, at the character-list level: compact output, members in
insertion order. -/
def renderChars : Json → List Char
  | .null => 'n' :: ['u', 'l', 'l']
  | .bool true => 't' :: ['r', 'u', 'e']
  | .bool false => 'f' :: ['a', 'l', 's', 'e']
  | .num n => (toString n).toList
  | .str s => '"' :: (escapeChars s.toList ++ ['"'])
  | .arr [] => ['[', ']']
  | .arr (e :: es) => '[' :: (renderItems e es ++ [']'])
  | .obj [] => ['{', '}']
  | .obj ((k, v) :: ms) => '{' :: (renderMembers k v ms ++ ['}'])
termination_by j => sizeOf j

/-- Comma-separated rendering of a non-empty array's elements. -/
def renderItems (e : Json) : List Json → List Char
  | [] => renderChars e
  | x :: xs => renderChars e ++ ',' :: renderItems x xs
termination_by es => 1 + sizeOf e + sizeOf es

/-- Comma-separated rendering of a non-empty object's members. -/
def renderMembers (k : String) (v : Json) : List (String × Json) → List Char
  | [] => '"' :: (escapeChars k.toList ++ '"' :: ':' :: renderChars v)
  | (k2, v2) :: xs =>
      ('"' :: (escapeChars k.toList ++ '"' :: ':' :: renderChars v))
        ++ ',' :: renderMembers k2 v2 xs
termination_by ms => 2 + sizeOf v + sizeOf ms

end

/-- `JSON.stringify` on our value model. -/
def renderJson (j : Json) : String := String.mk (renderChars j)

/-- Value of a hexadecimal digit character, if it is one. -/
def hexVal (c : Char) : Option Nat :=
  if 48 ≤ c.toNat ∧ c.toNat ≤ 57 then some (c.toNat - 48)
  else if 97 ≤ c.toNat ∧ c.toNat ≤ 102 then some (c.toNat - 87)
  else if 65 ≤ c.toNat ∧ c.toNat ≤ 70 then some (c.toNat - 55)
  else none

/-- The single-character JSON string escapes accepted after a backslash. -/
def unescapeChar (c : Char) : Option Char :=
  if c = '"' then some '"'
  else if c = '\\' then some '\\'
  else if c = '/' then some '/'
  else if c = 'b' then some '\x08'
  else if c = 'f' then some '\x0c'
  else if c = 'n' then some '\n'
  else if c = 'r' then some '\r'
  else if c = 't' then some '\t'
  else none

/-- Scan a JSON string body up to its closing quote, undoing escapes.  Returns
the body's characters and the input after the closing quote. -/
def parseStrBody : List Char → Option (List Char × List Char)
  | [] => none
  | c :: rest =>
    if c = '"' then some ([], rest)
    else if c = '\\' then
      match rest with
      | [] => none
      | e :: rest2 =>
        if e = 'u' then
          match rest2 with
          | h1 :: h2 :: h3 :: h4 :: rest3 =>
            match hexVal h1, hexVal h2, hexVal h3, hexVal h4 with
            | some a, some b, some c1, some d =>
              (parseStrBody rest3).map fun p =>
                (Char.ofNat (((a * 16 + b) * 16 + c1) * 16 + d) :: p.1, p.2)
            | _, _, _, _ => none
          | _ => none
        else
          match unescapeChar e with
          | some c1 => (parseStrBody rest2).map fun p => (c1 :: p.1, p.2)
          | none => none
    else (parseStrBody rest).map fun p => (c :: p.1, p.2)

/-- Accumulate a run of decimal digits. -/
def takeDigits : List Char → List Char × List Char
  | [] => ([], [])
  | c :: rest =>
    if c.isDigit then
      let p := takeDigits rest
      (c :: p.1, p.2)
    else ([], c :: rest)

/-- Numeric value of a digit run. -/
def digitsToNat (ds : List Char) : Nat :=
  ds.foldl (fun a c => 10 * a + (c.toNat - 48)) 0

/-- Parse an integer JSON number literal (optional minus sign, digit run). -/
def parseNum : List Char → Option (Json × List Char)
  | '-' :: rest =>
    let p := takeDigits rest
    if p.1.isEmpty then none else some (.num (-(digitsToNat p.1 : Int)), p.2)
  | cs =>
    let p := takeDigits cs
    if p.1.isEmpty then none else some (.num (digitsToNat p.1), p.2)

mutual

/-- One JSON value, by recursive descent; `fuel` only bounds the recursion (an
input's length plus one always suffices). -/
def parseVal : Nat → List Char → Option (Json × List Char)
  | 0, _ => none
  | fuel + 1, cs =>
    match cs with
    | '"' :: r => (parseStrBody r).map fun p => (Json.str (String.mk p.1), p.2)
    | '[' :: r =>
      match r with
      | ']' :: r2 => some (.arr [], r2)
      | _ => (parseItems fuel r).map fun p => (Json.arr p.1, p.2)
    | '{' :: r =>
      match r with
      | '}' :: r2 => some (.obj [], r2)
      | _ => (parseMembers fuel r).map fun p => (Json.obj p.1, p.2)
    | 't' :: 'r' :: 'u' :: 'e' :: r => some (.bool true, r)
    | 'f' :: 'a' :: 'l' :: 's' :: 'e' :: r => some (.bool false, r)
    | 'n' :: 'u' :: 'l' :: 'l' :: r => some (.null, r)
    | cs' => parseNum cs'

/-- The elements of a non-empty array, consuming the closing bracket. -/
def parseItems : Nat → List Char → Option (List Json × List Char)
  | 0, _ => none
  | fuel + 1, cs =>
    match parseVal fuel cs with
    | none => none
    | some (v, r) =>
      match r with
      | ',' :: r2 => (parseItems fuel r2).map fun p => (v :: p.1, p.2)
      | ']' :: r2 => some ([v], r2)
      | _ => none

/-- The members of a non-empty object, consuming the closing brace. -/
def parseMembers : Nat → List Char → Option (List (String × Json) × List Char)
  | 0, _ => none
  | fuel + 1, cs =>
    match cs with
    | '"' :: r =>
      match parseStrBody r with
      | none => none
      | some (k, r1) =>
        match r1 with
        | ':' :: r2 =>
          match parseVal fuel r2 with
          | none => none
          | some (v, r3) =>
            match r3 with
            | ',' :: r4 => (parseMembers fuel r4).map fun p =>
                ((String.mk k, v) :: p.1, p.2)
            | '}' :: r4 => some ([(String.mk k, v)], r4)
            | _ => none
        | _ => none
    | _ => none

end

/-- `JSON.parse` on our value model: the whole input must be consumed. -/
def parseJson (s : String) : Option Json :=
  match parseVal (s.length + 1) s.toList with
  | some (j, []) => some j
  | _ => none

end GDrive

namespace GDrive

/-
Restriction to number-free values: the only values the client serialises
(multipart metadata, request bodies) contain strings, arrays and objects, so
the codec round-trip is established on this fragment.
-/
mutual

/-- Number-freeness of a value. -/
def noNum : Json → Bool
  | .null => true
  | .bool _ => true
  | .num _ => false
  | .str _ => true
  | .arr es => noNumList es
  | .obj ms => noNumMembers ms
termination_by j => sizeOf j

def noNumList : List Json → Bool
  | [] => true
  | e :: es => noNum e && noNumList es
termination_by es => sizeOf es

def noNumMembers : List (String × Json) → Bool
  | [] => true
  | (_, v) :: ms => noNum v && noNumMembers ms
termination_by ms => sizeOf ms

end

theorem string_mk_toList (s : String) : String.mk s.toList = s := rfl

theorem hexVal_hexDigit : ∀ d : Nat, d < 16 → hexVal (hexDigit d) = some d := by
  decide

/-- Un-escaping one escaped character recovers it. -/
theorem parseStrBody_escapeChar (c : Char) (rest : List Char) :
    parseStrBody (escapeChar c ++ rest)
      = (parseStrBody rest).map fun p => (c :: p.1, p.2) := by
  rw [escapeChar]
  split_ifs with h1 h2 h3 h4 h5 h6 h7 h8
  · subst h1; rw [List.cons_append, List.cons_append, parseStrBody.eq_def]
    simp [unescapeChar]
  · subst h2; rw [List.cons_append, List.cons_append, parseStrBody.eq_def]
    simp [unescapeChar]
  · subst h3; rw [List.cons_append, List.cons_append, parseStrBody.eq_def]
    simp [unescapeChar]
  · subst h4; rw [List.cons_append, List.cons_append, parseStrBody.eq_def]
    simp [unescapeChar]
  · subst h5; rw [List.cons_append, List.cons_append, parseStrBody.eq_def]
    simp [unescapeChar]
  · subst h6; rw [List.cons_append, List.cons_append, parseStrBody.eq_def]
    simp [unescapeChar]
  · subst h7; rw [List.cons_append, List.cons_append, parseStrBody.eq_def]
    simp [unescapeChar]
  · have hhi : c.toNat / 16 < 16 := by omega
    have hlo : c.toNat % 16 < 16 := Nat.mod_lt _ (by omega)
    have harith : c.toNat / 16 * 16 + c.toNat % 16 = c.toNat := by omega
    simp only [List.cons_append]
    rw [parseStrBody.eq_def]
    simp [hexVal_hexDigit _ hhi, hexVal_hexDigit _ hlo, harith, Char.ofNat_toNat,
      show hexVal (Char.ofNat 48) = some 0 from rfl]
  · simp only [List.cons_append, List.nil_append]
    rw [parseStrBody.eq_def]
    simp [h1, h2]

/-- Un-escaping an escaped string body stops exactly at the closing quote. -/
theorem parseStrBody_escapes (cs : List Char) : ∀ rest : List Char,
    parseStrBody (escapeChars cs ++ '"' :: rest) = some (cs, rest) := by
  induction cs with
  | nil =>
      intro rest
      rw [escapeChars, List.nil_append, parseStrBody.eq_def]
      simp
  | cons c cs ih =>
      intro rest
      rw [escapeChars, List.append_assoc, parseStrBody_escapeChar, ih]
      rfl

/-- Every rendered number-free value begins with a character other than `]`
and `}`. -/
theorem renderChars_head (j : Json) (h : noNum j = true) :
    ∃ c t, renderChars j = c :: t ∧ c ≠ ']' ∧ c ≠ '}' := by
  cases j with
  | null => exact ⟨'n', ['u', 'l', 'l'], by simp [renderChars], by decide, by decide⟩
  | bool b =>
      cases b with
      | true => exact ⟨'t', ['r', 'u', 'e'], by simp [renderChars], by decide, by decide⟩
      | false =>
          exact ⟨'f', ['a', 'l', 's', 'e'], by simp [renderChars], by decide, by decide⟩
  | num n => simp [noNum] at h
  | str s =>
      exact ⟨'"', escapeChars s.toList ++ ['"'], by simp [renderChars], by decide,
        by decide⟩
  | arr es =>
      cases es with
      | nil => exact ⟨'[', [']'], by simp [renderChars], by decide, by decide⟩
      | cons e es =>
          exact ⟨'[', renderItems e es ++ [']'], by simp [renderChars], by decide,
            by decide⟩
  | obj ms =>
      cases ms with
      | nil => exact ⟨'{', ['}'], by simp [renderChars], by decide, by decide⟩
      | cons m ms =>
          obtain ⟨k, v⟩ := m
          exact ⟨'{', renderMembers k v ms ++ ['}'], by simp [renderChars], by decide,
            by decide⟩

/-- A non-empty array's rendered element list never begins with `]`. -/
theorem renderItems_head (e : Json) (es : List Json) (h : noNum e = true) :
    ∃ c t, renderItems e es = c :: t ∧ c ≠ ']' := by
  obtain ⟨c, t, hc, hb, _⟩ := renderChars_head e h
  cases es with
  | nil => exact ⟨c, t, by simp [renderItems, hc], hb⟩
  | cons x xs => exact ⟨c, t ++ ',' :: renderItems x xs, by simp [renderItems, hc], hb⟩

/-- A non-empty object's rendered member list begins with the key's quote. -/
theorem renderMembers_head (k : String) (v : Json) (ms : List (String × Json)) :
    ∃ t, renderMembers k v ms = '"' :: t := by
  cases ms with
  | nil => exact ⟨escapeChars k.toList ++ '"' :: ':' :: renderChars v, by
      simp [renderMembers]⟩
  | cons m ms =>
      obtain ⟨k2, v2⟩ := m
      exact ⟨escapeChars k.toList ++ '"' :: ':' :: (renderChars v
          ++ ',' :: renderMembers k2 v2 ms), by simp [renderMembers]⟩

/-- The parser's array branch defers to `parseItems` when the element list is
non-empty (its head is never `]`). -/
theorem parseVal_arr_step (fuel : Nat) (e : Json) (es : List Json) (rest : List Char)
    (h : noNum e = true) :
    parseVal (fuel + 1) ('[' :: (renderItems e es ++ ']' :: rest))
      = (parseItems fuel (renderItems e es ++ ']' :: rest)).map
          fun p => (Json.arr p.1, p.2) := by
  obtain ⟨c, t, hc, hb⟩ := renderItems_head e es h
  rw [hc]
  simp only [List.cons_append, parseVal]
  split
  · rename_i heq; cases heq; exact absurd rfl hb
  · rfl

/-- The parser's object branch defers to `parseMembers` when the member list
is non-empty (its head is the key's quote, never `}`). -/
theorem parseVal_obj_step (fuel : Nat) (k : String) (v : Json)
    (ms : List (String × Json)) (rest : List Char) :
    parseVal (fuel + 1) ('{' :: (renderMembers k v ms ++ '}' :: rest))
      = (parseMembers fuel (renderMembers k v ms ++ '}' :: rest)).map
          fun p => (Json.obj p.1, p.2) := by
  obtain ⟨t, hc⟩ := renderMembers_head k v ms
  rw [hc]
  simp only [List.cons_append, parseVal]
  rfl

mutual

/-- Completeness of the value parser on rendered number-free output. -/
theorem rt_val : ∀ (j : Json), noNum j = true → ∀ (fuel : Nat) (rest : List Char),
    (renderChars j).length < fuel →
    parseVal fuel (renderChars j ++ rest) = some (j, rest)
  | j, _, 0, _, hf => absurd hf (Nat.not_lt_zero _)
  | .null, _, fuel + 1, rest, _ => by simp [renderChars, parseVal]
  | .bool true, _, fuel + 1, rest, _ => by simp [renderChars, parseVal]
  | .bool false, _, fuel + 1, rest, _ => by simp [renderChars, parseVal]
  | .num n, h, _ + 1, _, _ => by simp [noNum] at h
  | .str s, _, fuel + 1, rest, _ => by
      simp [renderChars, parseVal, parseStrBody_escapes, string_mk_toList]
  | .arr [], _, fuel + 1, rest, _ => by simp [renderChars, parseVal]
  | .arr (e :: es), h, fuel + 1, rest, hf => by
      rw [noNum, noNumList, Bool.and_eq_true] at h
      obtain ⟨h1, h2⟩ := h
      have hl : (renderItems e es).length + 1 < fuel := by
        simp [renderChars] at hf; omega
      have harg : renderChars (.arr (e :: es)) ++ rest
          = '[' :: (renderItems e es ++ ']' :: rest) := by
        simp [renderChars]
      rw [harg, parseVal_arr_step fuel e es rest h1,
        rt_items e es h1 h2 fuel rest hl]
      rfl
  | .obj [], _, fuel + 1, rest, _ => by simp [renderChars, parseVal]
  | .obj ((k, v) :: ms), h, fuel + 1, rest, hf => by
      rw [noNum, noNumMembers, Bool.and_eq_true] at h
      obtain ⟨h1, h2⟩ := h
      have hl : (renderMembers k v ms).length + 1 < fuel := by
        simp [renderChars] at hf; omega
      have harg : renderChars (.obj ((k, v) :: ms)) ++ rest
          = '{' :: (renderMembers k v ms ++ '}' :: rest) := by
        simp [renderChars]
      rw [harg, parseVal_obj_step fuel k v ms rest,
        rt_members k v ms h1 h2 fuel rest hl]
      rfl
termination_by j _ _ _ _ => sizeOf j

/-- Completeness of the element parser on rendered number-free output. -/
theorem rt_items : ∀ (e : Json) (es : List Json), noNum e = true →
    noNumList es = true → ∀ (fuel : Nat) (rest : List Char),
    (renderItems e es).length + 1 < fuel →
    parseItems fuel (renderItems e es ++ ']' :: rest) = some (e :: es, rest)
  | _, _, _, _, 0, _, hf => absurd hf (Nat.not_lt_zero _)
  | e, [], h1, _, fuel + 1, rest, hf => by
      have he : (renderChars e).length < fuel := by
        simp [renderItems] at hf; omega
      have harg : renderItems e [] ++ ']' :: rest = renderChars e ++ ']' :: rest := by
        simp [renderItems]
      rw [harg]
      simp only [parseItems, rt_val e h1 fuel (']' :: rest) he]
  | e, x :: xs, h1, h2, fuel + 1, rest, hf => by
      rw [noNumList, Bool.and_eq_true] at h2
      obtain ⟨hx, hxs⟩ := h2
      obtain ⟨c, t, hc, _, _⟩ := renderChars_head e h1
      have hpos : 0 < (renderChars e).length := by rw [hc]; simp
      have htot : (renderChars e).length + 1 + (renderItems x xs).length
          = (renderItems e (x :: xs)).length := by
        simp [renderItems]; omega
      have he : (renderChars e).length < fuel := by omega
      have harg : renderItems e (x :: xs) ++ ']' :: rest
          = renderChars e ++ (',' :: (renderItems x xs ++ ']' :: rest)) := by
        simp [renderItems]
      rw [harg]
      simp only [parseItems,
        rt_val e h1 fuel (',' :: (renderItems x xs ++ ']' :: rest)) he,
        rt_items x xs hx hxs fuel rest (by omega)]
      rfl
termination_by e es _ _ _ _ _ => 1 + sizeOf e + sizeOf es

/-- Completeness of the member parser on rendered number-free output. -/
theorem rt_members : ∀ (k : String) (v : Json) (ms : List (String × Json)),
    noNum v = true → noNumMembers ms = true → ∀ (fuel : Nat) (rest : List Char),
    (renderMembers k v ms).length + 1 < fuel →
    parseMembers fuel (renderMembers k v ms ++ '}' :: rest)
      = some ((k, v) :: ms, rest)
  | _, _, _, _, _, 0, _, hf => absurd hf (Nat.not_lt_zero _)
  | k, v, [], hv, _, fuel + 1, rest, hf => by
      have hl : (renderChars v).length < fuel := by
        simp [renderMembers] at hf; omega
      have harg : renderMembers k v [] ++ '}' :: rest
          = '"' :: (escapeChars k.toList
              ++ '"' :: (':' :: (renderChars v ++ '}' :: rest))) := by
        simp [renderMembers]
      rw [harg]
      simp only [parseMembers, parseStrBody_escapes,
        rt_val v hv fuel ('}' :: rest) hl, string_mk_toList]
  | k, v, (k2, v2) :: xs, hv, hms, fuel + 1, rest, hf => by
      rw [noNumMembers, Bool.and_eq_true] at hms
      obtain ⟨hv2, hxs⟩ := hms
      have htot : (renderMembers k v ((k2, v2) :: xs)).length
          = (escapeChars k.toList).length + (renderChars v).length
            + (renderMembers k2 v2 xs).length + 4 := by
        simp [renderMembers]; omega
      have hl : (renderChars v).length < fuel := by omega
      have harg : renderMembers k v ((k2, v2) :: xs) ++ '}' :: rest
          = '"' :: (escapeChars k.toList ++ '"' :: (':' :: (renderChars v
              ++ ',' :: (renderMembers k2 v2 xs ++ '}' :: rest)))) := by
        simp [renderMembers]
      rw [harg]
      simp only [parseMembers, parseStrBody_escapes,
        rt_val v hv fuel
          (',' :: (renderMembers k2 v2 xs ++ '}' :: rest)) hl,
        rt_members k2 v2 xs hv2 hxs fuel rest (by omega), string_mk_toList]
      rfl
termination_by k v ms _ _ _ _ _ => 2 + sizeOf v + sizeOf ms

end

/-- The codec round-trip: parsing serialised number-free output recovers the
value exactly. -/
theorem parseJson_renderJson (j : Json) (h : noNum j = true) :
    parseJson (renderJson j) = some j := by
  have htl : (renderJson j).toList = renderChars j := rfl
  have hlen : (renderJson j).length = (renderChars j).length := rfl
  rw [parseJson, htl, hlen]
  have := rt_val j h ((renderChars j).length + 1) [] (by omega)
  rw [List.append_nil] at this
  rw [this]

/-
JavaScript-semantics helpers used by the pipeline's error-body handling.
-/

/-- JavaScript truthiness of a parsed JSON value (`!!v` and `v || w`):
`null`, `false`, `0` and the empty string are falsy; arrays and objects are
always truthy. -/
def jsTruthy : Json → Bool
  | .null => false
  | .bool b => b
  | .num n => n != 0
  | .str s => s != ""
  | .arr _ => true
  | .obj _ => true

/-- Property access `v.key` on a parsed JSON value: `none` models
`undefined`.  `JSON.parse` keeps the last duplicate key, hence the reversed
lookup. -/
def jsGet (j : Json) (key : String) : Option Json :=
  match j with
  | .obj ms => (ms.reverse.find? (fun m => m.1 == key)).map (·.2)
  | _ => none

mutual

/-- JavaScript `String(v)` coercion, as applied by the `Error` constructor to
a non-string message value. -/
def jsToString : Json → String
  | .null => "null"
  | .bool true => "true"
  | .bool false => "false"
  | .num n => toString n
  | .str s => s
  | .arr es => jsJoinElems es
  | .obj _ => "[object Object]"
termination_by j => sizeOf j

/-- `Array.prototype.toString` joins element coercions with commas; a `null`
element contributes the empty string. -/
def jsJoinElems : List Json → String
  | [] => ""
  | [.null] => ""
  | [e] => jsToString e
  | .null :: es => "," ++ jsJoinElems es
  | e :: es => jsToString e ++ "," ++ jsJoinElems es
termination_by es => sizeOf es

end

/-- The JavaScript `a || b` value-picking fallback applied to an optional
property value. -/
def jsOrElse (v : Option Json) (fallback : Json) : Json :=
  match v with
  | some j => if jsTruthy j then j else fallback
  | none => fallback

/-
The pipeline: configuration, credentials, error taxonomy, and the
request/response chokepoint of `GoogleDriveClientImpl`.
-/

def API_BASE_URL : String := "https://www.googleapis.com/drive/v3"

def UPLOAD_BASE_URL : String := "https://www.googleapis.com/upload/drive/v3"

/-- Default fields to return for file listings. -/
def DEFAULT_FILE_FIELDS : String :=
  "id,name,mimeType,description,starred,trashed,parents,size,createdTime,modifiedTime,webViewLink,webContentLink,iconLink,thumbnailLink,shared,ownedByMe,owners,capabilities"

/-- Modelled from the spec: `TenantCredentials` (declared in types/env.ts,
which is not under src/) is "an access token plus an optional base-URL
override, constructed once per inbound request"; `none` models an absent
header. -/
structure TenantCredentials where
  accessToken : Option String
  baseUrl : Option String

/-- Modelled from the spec: the error taxonomy of utils/errors.ts (not under
src/) — AuthenticationError, ForbiddenError, NotFoundError (resource kind and
requested path), RateLimitError (carrying retry-after), and the generic
GoogleDriveApiError carrying the numeric status.  The carriers store exactly
what the pipeline's throw sites pass them.  `retryAfter = none` models the
JavaScript `NaN` produced by `Number.parseInt` on a non-numeric string.
`jsonSyntaxError` models the built-in `SyntaxError` escaping
`response.json()` when a 2xx JSON-typed body does not parse. -/
inductive DriveError where
  | authenticationError (message : String)
  | forbiddenError (message : String)
  | notFoundError (resource : String) (path : String)
  | rateLimitError (message : String) (retryAfter : Option Int)
  | apiError (message : String) (status : Nat)
  | jsonSyntaxError
deriving DecidableEq

/-- The tagged outcome of a successful pipeline call: a 204 carries no
payload, a JSON content type carries the parsed body, anything else carries
the raw text. -/
inductive ApiPayload where
  | empty
  | jsonPayload (j : Json)
  | textPayload (s : String)

/-- A remote HTTP response as observed through `fetch`: numeric status, the
response headers, and the body text (`response.text()`); `response.json()` is
`parseJson` of that text. -/
structure HttpResponse where
  status : Nat
  headers : List (String × String)
  body : String

/-- ASCII lower-casing of one character (header names are ASCII). -/
def lowerChar (c : Char) : Char :=
  if 65 ≤ c.toNat ∧ c.toNat ≤ 90 then Char.ofNat (c.toNat + 32) else c

/-- `Headers.get`: case-insensitive header lookup returning `null` (`none`)
when absent. -/
def headerGet (hs : List (String × String)) (name : String) : Option String :=
  (hs.find? (fun h => h.1.toList.map lowerChar == name.toList.map lowerChar)).map (·.2)

/-- `Number.parseInt(s, 10)`: skip leading whitespace, optional sign, then a
decimal-digit prefix; `none` models `NaN` (no digit found). -/
def parseIntJs (s : String) : Option Int :=
  let cs := s.toList.dropWhile fun c => c == ' ' || ('\t' ≤ c && c ≤ '\x0d')
  match cs with
  | '-' :: rest =>
    let ds := rest.takeWhile Char.isDigit
    if ds.isEmpty then none else some (-(digitsToNat ds : Int))
  | '+' :: rest =>
    let ds := rest.takeWhile Char.isDigit
    if ds.isEmpty then none else some (digitsToNat ds)
  | _ =>
    let ds := cs.takeWhile Char.isDigit
    if ds.isEmpty then none else some (digitsToNat ds)

/-- The retry-after value a 429 carries:
`retryAfter ? Number.parseInt(retryAfter, 10) : 60` — a missing or empty
(falsy) header yields 60, a non-empty header is parsed and can yield `NaN`
(`none`). -/
def retryAfterValue : Option String → Option Int
  | none => some 60
  | some s => if s = "" then some 60 else parseIntJs s

/-- `response.ok`: status in the 2xx range. -/
def statusOk (status : Nat) : Bool := 200 ≤ status && status < 300

/-- Substring occurrence over character lists. -/
def infixCheck (sub : List Char) : List Char → Bool
  | [] => sub.isEmpty
  | c :: rest => sub.isPrefixOf (c :: rest) || infixCheck sub rest

/-- `String.prototype.includes`. -/
def strIncludes (s sub : String) : Bool := infixCheck sub.toList s.toList

/-- `contentType?.includes('application/json')`. -/
def contentTypeIsJson : Option String → Bool
  | none => false
  | some ct => strIncludes ct "application/json"

/-- 403 message extraction: `errorJson.error?.message || 'Access denied'`,
with a parse failure caught and degrading to the default. -/
def extractForbiddenMessage (body : String) : String :=
  match parseJson body with
  | none => "Access denied"
  | some j =>
    jsToString (jsOrElse ((jsGet j "error").bind (jsGet · "message")) (.str "Access denied"))

/-- Generic error message extraction:
`errorJson.error?.message || errorJson.message || message` with the default
`API error: <status>`, and a parse failure caught and degrading to the
default. -/
def extractApiErrorMessage (body : String) (status : Nat) : String :=
  match parseJson body with
  | none => "API error: " ++ toString status
  | some j =>
    jsToString (jsOrElse ((jsGet j "error").bind (jsGet · "message"))
      (jsOrElse (jsGet j "message") (.str ("API error: " ++ toString status))))

def noCredentialsMessage : String :=
  "No credentials provided. Include X-Google-Access-Token header."

/-- `getAuthHeaders`: throws an AuthenticationError when the access token is
absent or empty (JavaScript falsiness of `credentials.accessToken`), else
yields the Authorization and Content-Type headers. -/
def getAuthHeaders (c : TenantCredentials) : Except DriveError (List (String × String)) :=
  match c.accessToken with
  | none => .error (.authenticationError noCredentialsMessage)
  | some t =>
    if t = "" then .error (.authenticationError noCredentialsMessage)
    else .ok [("Authorization", "Bearer " ++ t), ("Content-Type", "application/json")]

/-- The metadata base URL picked in the constructor:
`credentials.baseUrl || API_BASE_URL` (an empty override is falsy); the
upload base URL is always the fixed `UPLOAD_BASE_URL`. -/
def clientBaseUrl (c : TenantCredentials) : String :=
  match c.baseUrl with
  | some u => if u = "" then API_BASE_URL else u
  | none => API_BASE_URL

/-- An outbound call as described by a client method: endpoint (path plus
query string), HTTP method, extra headers, optional body, and whether it
targets the upload base URL (`request`'s `useUploadUrl` flag). -/
structure DriveRequest where
  endpoint : String
  method : String := "GET"
  headers : List (String × String) := []
  body : Option String := none
  useUploadUrl : Bool := false
deriving DecidableEq

/-- URL construction in `request`: upload base URL for uploads, else the
per-tenant base URL, concatenated with the endpoint. -/
def requestUrl (c : TenantCredentials) (r : DriveRequest) : String :=
  (if r.useUploadUrl then UPLOAD_BASE_URL else clientBaseUrl c) ++ r.endpoint

/-- Status interpretation of `request`, applied to the `fetch` response in
source order: 429, 401, 403, 404, any other non-2xx, 204, JSON content type,
raw text. -/
def handleResponse (endpoint : String) (resp : HttpResponse) :
    Except DriveError ApiPayload :=
  if resp.status = 429 then
    .error (.rateLimitError "Rate limit exceeded"
      (retryAfterValue (headerGet resp.headers "Retry-After")))
  else if resp.status = 401 then
    .error (.authenticationError "Authentication failed. Check your OAuth access token.")
  else if resp.status = 403 then
    .error (.forbiddenError (extractForbiddenMessage resp.body))
  else if resp.status = 404 then
    .error (.notFoundError "Resource" endpoint)
  else if ¬ statusOk resp.status then
    .error (.apiError (extractApiErrorMessage resp.body resp.status) resp.status)
  else if resp.status = 204 then
    .ok .empty
  else if contentTypeIsJson (headerGet resp.headers "content-type") then
    match parseJson resp.body with
    | some j => .ok (.jsonPayload j)
    | none => .error .jsonSyntaxError
  else
    .ok (.textPayload resp.body)

/-- The `request` chokepoint: evaluate `getAuthHeaders` (throwing before any
network activity when the credential is missing), then perform exactly one
`fetch` of the constructed URL — the second component lists the URLs fetched
— and interpret the response. -/
def runRequest (c : TenantCredentials) (r : DriveRequest) (resp : HttpResponse) :
    Except DriveError ApiPayload × List String :=
  match getAuthHeaders c with
  | .error e => (.error e, [])
  | .ok _ => (handleResponse r.endpoint resp, [requestUrl c r])

/-
The facade layer: per-operation parameter marshalling and response
reshaping.
-/

/-- `URLSearchParams.set`: replace an existing key's value in place or append
a new pair. -/
def setParam (ps : List (String × String)) (key value : String) :
    List (String × String) :=
  if ps.any (fun p => p.1 == key) then
    ps.map fun p => if p.1 == key then (key, value) else p
  else ps ++ [(key, value)]

/-- Upper-case hexadecimal digit. -/
def hexDigitUpper (n : Nat) : Char :=
  if n < 10 then Char.ofNat (48 + n) else Char.ofNat (55 + n)

/-- One UTF-8 byte under the `application/x-www-form-urlencoded` serialiser
used by `URLSearchParams.toString`: alphanumerics and `*-._` stay literal,
space becomes `+`, everything else `%XX`. -/
def formEncodeByte (b : Nat) : List Char :=
  if (48 ≤ b ∧ b ≤ 57) ∨ (65 ≤ b ∧ b ≤ 90) ∨ (97 ≤ b ∧ b ≤ 122)
      ∨ b = 42 ∨ b = 45 ∨ b = 46 ∨ b = 95 then
    [Char.ofNat b]
  else if b = 32 then ['+']
  else ['%', hexDigitUpper (b / 16), hexDigitUpper (b % 16)]

/-- Form-url-encode a string byte-wise over its UTF-8 encoding. -/
def formEncode (s : String) : String :=
  String.mk (s.toUTF8.toList.foldr (fun b acc => formEncodeByte b.toNat ++ acc) [])

/-- `URLSearchParams.toString`. -/
def paramsToString (ps : List (String × String)) : String :=
  String.intercalate "&" (ps.map fun p => formEncode p.1 ++ "=" ++ formEncode p.2)

/-- Truthiness of an optional string (`if (params.x)`): present and
non-empty. -/
def optStrTruthy : Option String → Bool
  | none => false
  | some s => s != ""

/-- Truthiness of an optional number: present and non-zero. -/
def optNumTruthy : Option Int → Bool
  | none => false
  | some n => n != 0

/-- Truthiness of an optional boolean: present and `true`. -/
def optBoolTruthy : Option Bool → Bool
  | none => false
  | some b => b

/-- `x || d` on an optional string parameter. -/
def jsStrOr : Option String → String → String
  | some s, d => if s = "" then d else s
  | none, d => d

/-- `String(b)`. -/
def boolString : Bool → String
  | true => "true"
  | false => "false"

/-- Guarded `queryParams.set(key, v)` for a string parameter. -/
def setIfStr (ps : List (String × String)) (key : String) :
    Option String → List (String × String)
  | some s => if s != "" then setParam ps key s else ps
  | none => ps

/-- Guarded `queryParams.set(key, String(v))` for a numeric parameter. -/
def setIfNum (ps : List (String × String)) (key : String) :
    Option Int → List (String × String)
  | some n => if n != 0 then setParam ps key (toString n) else ps
  | none => ps

/-- Guarded `queryParams.set(key, String(v))` for a boolean parameter: only a
present `true` is truthy. -/
def setIfBool (ps : List (String × String)) (key : String) :
    Option Bool → List (String × String)
  | some true => setParam ps key "true"
  | _ => ps

/-- The uniform paginated shape `{ items, hasMore, nextPageToken? }` every
list operation returns. -/
structure PaginatedResponse (T : Type) where
  items : List T
  hasMore : Bool
  nextPageToken : Option String

/-- The remote `files.list` envelope as the facade reads the cast JSON: the
resource array may be missing, the next-page token is optional.  Entity
payloads are passthrough, so the element type stays abstract. -/
structure FilesListResponse (T : Type) where
  files : Option (List T)
  nextPageToken : Option String

/-- The remote permission-list envelope. -/
structure PermissionsListResponse (T : Type) where
  permissions : Option (List T)
  nextPageToken : Option String

/-- The remote comment-list envelope. -/
structure CommentsListResponse (T : Type) where
  comments : Option (List T)
  nextPageToken : Option String

/-- The remote reply-list envelope. -/
structure RepliesListResponse (T : Type) where
  replies : Option (List T)
  nextPageToken : Option String

/-- The remote revision-list envelope. -/
structure RevisionsListResponse (T : Type) where
  revisions : Option (List T)
  nextPageToken : Option String

/-- The remote shared-drive-list envelope. -/
structure DrivesListResponse (T : Type) where
  drives : Option (List T)
  nextPageToken : Option String

/-- The remote access-proposal-list envelope. -/
structure AccessProposalsListResponse (T : Type) where
  accessProposals : Option (List T)
  nextPageToken : Option String

/-- `listFiles`'s reshaping of the envelope:
`{ items: response.files || [], hasMore: !!response.nextPageToken,
nextPageToken: response.nextPageToken }`. -/
def listFilesResult {T : Type} (r : FilesListResponse T) : PaginatedResponse T :=
  { items := r.files.getD []
  , hasMore := optStrTruthy r.nextPageToken
  , nextPageToken := r.nextPageToken }

/-- `listPermissions`'s reshaping of its envelope. -/
def listPermissionsResult {T : Type} (r : PermissionsListResponse T) :
    PaginatedResponse T :=
  { items := r.permissions.getD []
  , hasMore := optStrTruthy r.nextPageToken
  , nextPageToken := r.nextPageToken }

/-- `listComments`'s reshaping of its envelope. -/
def listCommentsResult {T : Type} (r : CommentsListResponse T) :
    PaginatedResponse T :=
  { items := r.comments.getD []
  , hasMore := optStrTruthy r.nextPageToken
  , nextPageToken := r.nextPageToken }

/-- `listReplies`'s reshaping of its envelope. -/
def listRepliesResult {T : Type} (r : RepliesListResponse T) :
    PaginatedResponse T :=
  { items := r.replies.getD []
  , hasMore := optStrTruthy r.nextPageToken
  , nextPageToken := r.nextPageToken }

/-- `listRevisions`'s reshaping of its envelope. -/
def listRevisionsResult {T : Type} (r : RevisionsListResponse T) :
    PaginatedResponse T :=
  { items := r.revisions.getD []
  , hasMore := optStrTruthy r.nextPageToken
  , nextPageToken := r.nextPageToken }

/-- `listDrives`'s reshaping of its envelope. -/
def listDrivesResult {T : Type} (r : DrivesListResponse T) :
    PaginatedResponse T :=
  { items := r.drives.getD []
  , hasMore := optStrTruthy r.nextPageToken
  , nextPageToken := r.nextPageToken }

/-- `listAccessProposals`'s reshaping of its envelope. -/
def listAccessProposalsResult {T : Type} (r : AccessProposalsListResponse T) :
    PaginatedResponse T :=
  { items := r.accessProposals.getD []
  , hasMore := optStrTruthy r.nextPageToken
  , nextPageToken := r.nextPageToken }

/-- Parameters of `listFiles`. -/
structure ListFilesParams where
  q : Option String := none
  pageSize : Option Int := none
  pageToken : Option String := none
  fields : Option String := none
  orderBy : Option String := none
  spaces : Option String := none
  corpora : Option String := none
  driveId : Option String := none
  includeItemsFromAllDrives : Option Bool := none
  supportsAllDrives : Option Bool := none
deriving DecidableEq

/-- Query construction of `listFiles`, mirroring the source's `set` sequence:
each optional parameter is guarded by truthiness, while the fields projection
(`nextPageToken,files(...)` with the wide file default) is always set. -/
def listFilesQuery (p : ListFilesParams) : List (String × String) :=
  let ps : List (String × String) := []
  let ps := setIfStr ps "q" p.q
  let ps := setIfNum ps "pageSize" p.pageSize
  let ps := setIfStr ps "pageToken" p.pageToken
  let ps := setParam ps "fields"
    ("nextPageToken,files(" ++ jsStrOr p.fields DEFAULT_FILE_FIELDS ++ ")")
  let ps := setIfStr ps "orderBy" p.orderBy
  let ps := setIfStr ps "spaces" p.spaces
  let ps := setIfStr ps "corpora" p.corpora
  let ps := setIfStr ps "driveId" p.driveId
  let ps := setIfBool ps "includeItemsFromAllDrives" p.includeItemsFromAllDrives
  let ps := setIfBool ps "supportsAllDrives" p.supportsAllDrives
  ps

/-- The outbound call `listFiles` performs. -/
def listFilesRequest (p : ListFilesParams) : DriveRequest :=
  { endpoint := "/files?" ++ paramsToString (listFilesQuery p) }

/-- Parameters of `listFolderContents`: pagination and ordering only — no
caller-visible parameter can reach the search query. -/
structure FolderContentsParams where
  pageSize : Option Int := none
  pageToken : Option String := none
  orderBy : Option String := none
deriving DecidableEq

/-- `listFolderContents` delegates to `listFiles` with the fixed search query
`'<folderId>' in parents and trashed = false`. -/
def listFolderContentsRequest (folderId : String) (p : FolderContentsParams) :
    DriveRequest :=
  listFilesRequest
    { q := some ("\x27" ++ folderId ++ "\x27 in parents and trashed = false")
    , pageSize := p.pageSize
    , pageToken := p.pageToken
    , orderBy := p.orderBy }

/-- The folder-contents reshaping is `listFiles`'s reshaping (the method
returns `this.listFiles(...)` unchanged). -/
def listFolderContentsResult {T : Type} (r : FilesListResponse T) :
    PaginatedResponse T :=
  listFilesResult r

/-- Parameters of `listPermissions`. -/
structure ListPermissionsParams where
  pageSize : Option Int := none
  pageToken : Option String := none
  supportsAllDrives : Option Bool := none

/-- Query construction of `listPermissions`
(`supportsAllDrives` defaults to true by nullish coalescing). -/
def listPermissionsQuery (p : ListPermissionsParams) : List (String × String) :=
  let ps := setIfNum [] "pageSize" p.pageSize
  let ps := setIfStr ps "pageToken" p.pageToken
  let ps := setParam ps "supportsAllDrives" (boolString (p.supportsAllDrives.getD true))
  let ps := setParam ps "fields" "nextPageToken,permissions(*)"
  ps

/-- The outbound call `listPermissions` performs. -/
def listPermissionsRequest (fileId : String) (p : ListPermissionsParams) :
    DriveRequest :=
  { endpoint := "/files/" ++ fileId ++ "/permissions?"
      ++ paramsToString (listPermissionsQuery p) }

/-- Parameters of `createFile`. -/
structure CreateFileParams where
  name : String
  mimeType : Option String := none
  parents : Option (List String) := none
  description : Option String := none
  content : Option String := none
deriving DecidableEq

/-- The metadata object `createFile` assembles: `name` always, then each
truthy optional field in insertion order (an array is always truthy). -/
def createFileMetadata (p : CreateFileParams) : Json :=
  .obj ([("name", Json.str p.name)]
    ++ (match p.mimeType with
        | some m => if m != "" then [("mimeType", Json.str m)] else []
        | none => [])
    ++ (match p.parents with
        | some ps => [("parents", Json.arr (ps.map Json.str))]
        | none => [])
    ++ (match p.description with
        | some d => if d != "" then [("description", Json.str d)] else []
        | none => []))

def multipartBoundary : String := "-------314159265358979323846"

def multipartDelimiter : String := "\r\n--" ++ multipartBoundary ++ "\r\n"

def multipartCloseDelim : String := "\r\n--" ++ multipartBoundary ++ "--"

/-- The two-part MIME body built for an upload: a JSON metadata part followed
by the raw content part, between fixed boundary delimiters. -/
def multipartBody (metadata : Json) (contentType content : String) : String :=
  multipartDelimiter
    ++ "Content-Type: application/json; charset=UTF-8\r\n\r\n"
    ++ renderJson metadata
    ++ multipartDelimiter
    ++ "Content-Type: " ++ contentType ++ "\r\n\r\n"
    ++ content
    ++ multipartCloseDelim

/-- `createFile`: truthy inline content selects a multipart POST to the
upload endpoint; otherwise a metadata-only JSON POST to the metadata
endpoint. -/
def createFileRequest (p : CreateFileParams) : DriveRequest :=
  let metadata := createFileMetadata p
  if optStrTruthy p.content then
    { endpoint := "/files?uploadType=multipart&fields=" ++ DEFAULT_FILE_FIELDS
    , method := "POST"
    , headers := [("Content-Type",
        "multipart/related; boundary=\"" ++ multipartBoundary ++ "\"")]
    , body := some (multipartBody metadata (jsStrOr p.mimeType "text/plain")
        (p.content.getD ""))
    , useUploadUrl := true }
  else
    { endpoint := "/files?fields=" ++ DEFAULT_FILE_FIELDS
    , method := "POST"
    , body := some (renderJson metadata) }

/-- Parameters of `updateFile`. -/
structure UpdateFileParams where
  name : Option String := none
  description : Option String := none
  mimeType : Option String := none
  content : Option String := none
  addParents : Option String := none
  removeParents : Option String := none
  starred : Option Bool := none
  trashed : Option Bool := none
deriving DecidableEq

/-- Query construction of `updateFile`. -/
def updateFileQuery (p : UpdateFileParams) : List (String × String) :=
  let ps := setParam [] "fields" DEFAULT_FILE_FIELDS
  let ps := setParam ps "supportsAllDrives" "true"
  let ps := setIfStr ps "addParents" p.addParents
  let ps := setIfStr ps "removeParents" p.removeParents
  ps

/-- The metadata `updateFile` assembles: inclusion here is decided by
presence (`!== undefined`), not truthiness. -/
def updateFileMetadata (p : UpdateFileParams) : Json :=
  .obj ((match p.name with | some s => [("name", Json.str s)] | none => [])
    ++ (match p.description with | some s => [("description", Json.str s)] | none => [])
    ++ (match p.mimeType with | some s => [("mimeType", Json.str s)] | none => [])
    ++ (match p.starred with | some b => [("starred", Json.bool b)] | none => [])
    ++ (match p.trashed with | some b => [("trashed", Json.bool b)] | none => []))

/-- `updateFile`: truthy inline content selects a multipart PATCH to the
upload endpoint; otherwise a metadata-only JSON PATCH. -/
def updateFileRequest (fileId : String) (p : UpdateFileParams) : DriveRequest :=
  let metadata := updateFileMetadata p
  if optStrTruthy p.content then
    { endpoint := "/files/" ++ fileId ++ "?uploadType=multipart&"
        ++ paramsToString (updateFileQuery p)
    , method := "PATCH"
    , headers := [("Content-Type",
        "multipart/related; boundary=\"" ++ multipartBoundary ++ "\"")]
    , body := some (multipartBody metadata (jsStrOr p.mimeType "text/plain")
        (p.content.getD ""))
    , useUploadUrl := true }
  else
    { endpoint := "/files/" ++ fileId ++ "?" ++ paramsToString (updateFileQuery p)
    , method := "PATCH"
    , body := some (renderJson metadata) }

/-- The outbound call `getFile` performs. -/
def getFileRequest (fileId : String) (fields : Option String) : DriveRequest :=
  let ps := setParam [] "fields" (jsStrOr fields DEFAULT_FILE_FIELDS)
  let ps := setParam ps "supportsAllDrives" "true"
  { endpoint := "/files/" ++ fileId ++ "?" ++ paramsToString ps }

/-- The outbound call `deleteFile` performs. -/
def deleteFileRequest (fileId : String) : DriveRequest :=
  { endpoint := "/files/" ++ fileId ++ "?supportsAllDrives=true"
  , method := "DELETE" }

/-- `createFolder` delegates to `createFile` with the folder MIME type. -/
def createFolderRequest (name : String) (parents : Option (List String)) :
    DriveRequest :=
  createFileRequest
    { name := name
    , mimeType := some "application/vnd.google-apps.folder"
    , parents := parents }

/-
The tool layer: handlers relevant to the claims, as the sequences of client
calls they perform.
-/

/-- The slice of the `DriveFile` entity the move-file tool reads — the parent
folder IDs.  Entities are passthrough; no other field is inspected by the
embedded handlers. -/
structure DriveFileParents where
  parents : Option (List String)

/-- The `googledrive_move_file` handler: first a `getFile` metadata read to
learn the current parents, then an `updateFile` with `addParents` and
(optionally) `removeParents = currentFile.parents?.join(',')`.  When the
first call throws, the catch formats the error and no second call happens. -/
def moveFileHandlerCalls (fileId newParentId : String)
    (removeFromCurrentParent : Bool)
    (firstResult : Except DriveError DriveFileParents) : List DriveRequest :=
  match firstResult with
  | .error _ => [getFileRequest fileId none]
  | .ok f =>
    [getFileRequest fileId none,
     updateFileRequest fileId
       { addParents := some newParentId
       , removeParents :=
           if removeFromCurrentParent then f.parents.map (String.intercalate ",")
           else none }]

/-- The `googledrive_create_folder` handler: one `createFolder` call
(`parentId ? [parentId] : undefined`). -/
def createFolderHandlerCalls (name : String) (parentId : Option String) :
    List DriveRequest :=
  [createFolderRequest name
    (if optStrTruthy parentId then some [parentId.getD ""] else none)]

/-- The `googledrive_list_folder_contents` handler: one client call. -/
def listFolderContentsHandlerCalls (folderId : String) (p : FolderContentsParams) :
    List DriveRequest :=
  [listFolderContentsRequest folderId p]

/-- The `googledrive_delete_file` handler: one client call. -/
def deleteFileHandlerCalls (fileId : String) : List DriveRequest :=
  [deleteFileRequest fileId]

/-
Helper lemmas shared by the claim theorems.
-/

theorem optStrTruthy_iff (t : Option String) :
    optStrTruthy t = true ↔ ∃ s, t = some s ∧ s ≠ "" := by
  cases t with
  | none => simp [optStrTruthy]
  | some s => simp [optStrTruthy]

/-- The corrected pagination contract shared by every list operation:
`hasMore` holds exactly for a carried non-empty token; any carried token is
forwarded verbatim; an absent token yields `hasMore = false` with an absent
output token; `items` is the resource array, `[]` when it is missing. -/
def PaginationSpec {T : Type} (resources : Option (List T)) (token : Option String)
    (out : PaginatedResponse T) : Prop :=
  (out.hasMore = true ↔ ∃ s, token = some s ∧ s ≠ "")
    ∧ out.nextPageToken = token
    ∧ (token = none → out.hasMore = false ∧ out.nextPageToken = none)
    ∧ out.items = resources.getD []

theorem paginationSpec_mk {T : Type} (resources : Option (List T))
    (token : Option String) :
    PaginationSpec resources token
      ⟨resources.getD [], optStrTruthy token, token⟩ := by
  refine ⟨optStrTruthy_iff token, rfl, ?_, rfl⟩
  intro h
  subst h
  exact ⟨rfl, rfl⟩

theorem noNumMembers_append (a b : List (String × Json)) :
    noNumMembers (a ++ b) = (noNumMembers a && noNumMembers b) := by
  induction a with
  | nil => simp [noNumMembers]
  | cons m ms ih =>
      obtain ⟨k, v⟩ := m
      simp [noNumMembers, ih, Bool.and_assoc]

theorem noNumList_map_str (l : List String) :
    noNumList (l.map Json.str) = true := by
  induction l with
  | nil => simp [noNumList]
  | cons s l ih => simp [noNumList, noNum, ih]

theorem createFileMetadata_noNum (p : CreateFileParams) :
    noNum (createFileMetadata p) = true := by
  rw [createFileMetadata, noNum]
  rw [noNumMembers_append, noNumMembers_append, noNumMembers_append]
  have h1 : noNumMembers [("name", Json.str p.name)] = true := by
    simp [noNumMembers, noNum]
  have h2 : noNumMembers (match p.mimeType with
      | some m => if m != "" then [("mimeType", Json.str m)] else []
      | none => []) = true := by
    cases p.mimeType with
    | none => simp [noNumMembers]
    | some m =>
        by_cases hm : m != "" <;> simp [hm, noNumMembers, noNum]
  have h3 : noNumMembers (match p.parents with
      | some ps => [("parents", Json.arr (ps.map Json.str))]
      | none => []) = true := by
    cases p.parents with
    | none => simp [noNumMembers]
    | some ps => simp [noNumMembers, noNum, noNumList_map_str]
  have h4 : noNumMembers (match p.description with
      | some d => if d != "" then [("description", Json.str d)] else []
      | none => []) = true := by
    cases p.description with
    | none => simp [noNumMembers]
    | some d =>
        by_cases hd : d != "" <;> simp [hd, noNumMembers, noNum]
  rw [h1, h2, h3, h4]
  rfl

/-- The key list of a metadata object. -/
def objKeys : Json → List String
  | .obj ms => ms.map (·.1)
  | _ => []

/-
Claim theorems.
-/

/-- C1 (counterexample): a remote file-list response that carries the
next-page token `""` refutes the claim as stated — the response carried a
`nextPageToken`, yet `hasMore` is `false` (and the empty token is still
forwarded, so the output token is not absent either). -/
theorem c1_counterexample :
    (listFilesResult (⟨none, some ""⟩ : FilesListResponse Nat)).hasMore = false
    ∧ (⟨none, some ""⟩ : FilesListResponse Nat).nextPageToken.isSome = true
    ∧ ¬ ((listFilesResult (⟨none, some ""⟩ : FilesListResponse Nat)).hasMore = true
          ↔ (⟨none, some ""⟩ : FilesListResponse Nat).nextPageToken.isSome = true) := by
  refine ⟨rfl, rfl, ?_⟩
  intro h
  have := h.mpr rfl
  cases this

/-- C1 (amended): for each of the seven paginating operations and every
remote response, `hasMore` is true exactly when the response carried a
non-empty next-page token; a carried token is forwarded verbatim (even when
empty, in which case `hasMore` is still false); with no carried token,
`hasMore` is false and the output token absent; `items` is the resource
array, or `[]` when the array is missing. -/
theorem c1_pagination_normalization (T : Type)
    (rf : FilesListResponse T) (rp : PermissionsListResponse T)
    (rc : CommentsListResponse T) (rr : RepliesListResponse T)
    (rv : RevisionsListResponse T) (rd : DrivesListResponse T)
    (ra : AccessProposalsListResponse T) :
    PaginationSpec rf.files rf.nextPageToken (listFilesResult rf)
    ∧ PaginationSpec rp.permissions rp.nextPageToken (listPermissionsResult rp)
    ∧ PaginationSpec rc.comments rc.nextPageToken (listCommentsResult rc)
    ∧ PaginationSpec rr.replies rr.nextPageToken (listRepliesResult rr)
    ∧ PaginationSpec rv.revisions rv.nextPageToken (listRevisionsResult rv)
    ∧ PaginationSpec rd.drives rd.nextPageToken (listDrivesResult rd)
    ∧ PaginationSpec ra.accessProposals ra.nextPageToken
        (listAccessProposalsResult ra) :=
  ⟨paginationSpec_mk _ _, paginationSpec_mk _ _, paginationSpec_mk _ _,
    paginationSpec_mk _ _, paginationSpec_mk _ _, paginationSpec_mk _ _,
    paginationSpec_mk _ _⟩

/-- C2: with an absent or empty access token, every operation fails with the
AuthenticationError thrown by `getAuthHeaders`, and the list of fetched URLs
is empty — the precondition check happens before `fetch`. -/
theorem c2_missing_credentials (c : TenantCredentials) (r : DriveRequest)
    (resp : HttpResponse)
    (h : c.accessToken = none ∨ c.accessToken = some "") :
    runRequest c r resp
      = (.error (.authenticationError noCredentialsMessage), []) := by
  rcases h with h | h <;> simp [runRequest, getAuthHeaders, h]

theorem c2_missing_credentials_witness :
    ((⟨none, none⟩ : TenantCredentials).accessToken = none
        ∨ (⟨none, none⟩ : TenantCredentials).accessToken = some "")
    ∧ runRequest ⟨none, none⟩ ⟨"/about", "GET", [], none, false⟩ ⟨200, [], ""⟩
        = (.error (.authenticationError noCredentialsMessage), []) :=
  ⟨Or.inl rfl,
    c2_missing_credentials ⟨none, none⟩ ⟨"/about", "GET", [], none, false⟩
      ⟨200, [], ""⟩ (Or.inl rfl)⟩

/-- C9: `listFolderContents` is exactly `listFiles` under the fixed search
query restricting to the folder's children and excluding trashed files, with
only pagination parameters forwarded, and it reuses `listFiles`'s response
reshaping unchanged. -/
theorem c9_folder_contents (folderId : String) (p : FolderContentsParams) :
    listFolderContentsRequest folderId p
      = listFilesRequest
          { q := some ("\x27" ++ folderId ++ "\x27 in parents and trashed = false")
          , pageSize := p.pageSize
          , pageToken := p.pageToken
          , orderBy := p.orderBy }
    ∧ (∀ (T : Type) (r : FilesListResponse T),
        listFolderContentsResult r = listFilesResult r) :=
  ⟨rfl, fun _ _ => rfl⟩

/-- C3 (counterexample): a 429 whose `Retry-After` header is present but
non-numeric (`"abc"`) yields a RateLimitError carrying `NaN` (modelled
`none`), not the claimed 60-second default. -/
theorem c3_counterexample :
    (runRequest ⟨some "tok", none⟩ ⟨"/files", "GET", [], none, false⟩
        ⟨429, [("Retry-After", "abc")], ""⟩).1
      = .error (.rateLimitError "Rate limit exceeded" none)
    ∧ (runRequest ⟨some "tok", none⟩ ⟨"/files", "GET", [], none, false⟩
        ⟨429, [("Retry-After", "abc")], ""⟩).1
      ≠ .error (.rateLimitError "Rate limit exceeded" (some 60)) := by
  have h1 : (runRequest ⟨some "tok", none⟩ ⟨"/files", "GET", [], none, false⟩
      ⟨429, [("Retry-After", "abc")], ""⟩).1
      = .error (.rateLimitError "Rate limit exceeded" none) := rfl
  refine ⟨h1, ?_⟩
  rw [h1]
  intro h
  simp at h

/-- C3 (amended): a 429 yields a RateLimitError whose retry-after value is
computed by `retryAfter ? parseInt(retryAfter, 10) : 60`: 60 when the header
is absent or empty (falsy), the parsed integer when present and numeric
(e.g. `"120"` gives 120), and `NaN` (`none`) when present, non-empty and
unparsable. -/
theorem c3_rate_limit (c : TenantCredentials) (t : String)
    (hc : c.accessToken = some t) (ht : t ≠ "") (r : DriveRequest)
    (resp : HttpResponse) (h429 : resp.status = 429) :
    (runRequest c r resp).1
      = .error (.rateLimitError "Rate limit exceeded"
          (retryAfterValue (headerGet resp.headers "Retry-After")))
    ∧ retryAfterValue none = some 60
    ∧ retryAfterValue (some "") = some 60
    ∧ (∀ s : String, s ≠ "" → retryAfterValue (some s) = parseIntJs s)
    ∧ parseIntJs "120" = some 120 := by
  refine ⟨?_, rfl, rfl, ?_, rfl⟩
  · simp [runRequest, getAuthHeaders, hc, ht, handleResponse, h429]
  · intro s hs
    simp [retryAfterValue, hs]

theorem c3_rate_limit_witness :
    ("tok" ≠ ""
      ∧ (⟨429, [("Retry-After", "120")], ""⟩ : HttpResponse).status = 429)
    ∧ ((runRequest ⟨some "tok", none⟩ ⟨"/files", "GET", [], none, false⟩
          ⟨429, [("Retry-After", "120")], ""⟩).1
        = .error (.rateLimitError "Rate limit exceeded"
            (retryAfterValue (headerGet [("Retry-After", "120")] "Retry-After")))
        ∧ retryAfterValue none = some 60
        ∧ retryAfterValue (some "") = some 60
        ∧ (∀ s : String, s ≠ "" → retryAfterValue (some s) = parseIntJs s)
        ∧ parseIntJs "120" = some 120) :=
  ⟨⟨by decide, rfl⟩,
    c3_rate_limit ⟨some "tok", none⟩ "tok" rfl (by decide)
      ⟨"/files", "GET", [], none, false⟩ ⟨429, [("Retry-After", "120")], ""⟩ rfl⟩

/-- C6: for every operation, request description and HTTP method, a remote
401 yields the AuthenticationError — the handling depends only on the status,
never on the method or resource. -/
theorem c6_status_401 (c : TenantCredentials) (t : String)
    (hc : c.accessToken = some t) (ht : t ≠ "") (r : DriveRequest)
    (resp : HttpResponse) (h : resp.status = 401) :
    (runRequest c r resp).1
      = .error (.authenticationError
          "Authentication failed. Check your OAuth access token.") := by
  simp [runRequest, getAuthHeaders, hc, ht, handleResponse, h]

theorem c6_status_401_witness :
    ("tok" ≠ "" ∧ (⟨401, [], ""⟩ : HttpResponse).status = 401)
    ∧ (runRequest ⟨some "tok", none⟩ ⟨"/drives/d1", "PATCH", [], some "x", false⟩
          ⟨401, [], ""⟩).1
        = .error (.authenticationError
            "Authentication failed. Check your OAuth access token.") :=
  ⟨⟨by decide, rfl⟩,
    c6_status_401 ⟨some "tok", none⟩ "tok" rfl (by decide)
      ⟨"/drives/d1", "PATCH", [], some "x", false⟩ ⟨401, [], ""⟩ rfl⟩

/-- C7: success shaping by status and content type — a 204 yields the
payload-less success; any other 2xx with a JSON content type yields the
parsed JSON payload; any other 2xx with a non-JSON (or absent) content type
yields the raw body text. -/
theorem c7_success_shaping (c : TenantCredentials) (t : String)
    (hc : c.accessToken = some t) (ht : t ≠ "") (r : DriveRequest)
    (resp : HttpResponse) :
    (resp.status = 204 → (runRequest c r resp).1 = .ok .empty)
    ∧ (∀ j : Json, statusOk resp.status = true → resp.status ≠ 204
        → contentTypeIsJson (headerGet resp.headers "content-type") = true
        → parseJson resp.body = some j
        → (runRequest c r resp).1 = .ok (.jsonPayload j))
    ∧ (statusOk resp.status = true → resp.status ≠ 204
        → contentTypeIsJson (headerGet resp.headers "content-type") = false
        → (runRequest c r resp).1 = .ok (.textPayload resp.body)) := by
  refine ⟨?_, ?_, ?_⟩
  · intro h
    simp [runRequest, getAuthHeaders, hc, ht, handleResponse, h, statusOk]
  · intro j hok h204 hct hp
    have hb : 200 ≤ resp.status ∧ resp.status < 300 := by
      simpa [statusOk, Bool.and_eq_true, decide_eq_true_eq] using hok
    have h429 : resp.status ≠ 429 := by omega
    have h401 : resp.status ≠ 401 := by omega
    have h403 : resp.status ≠ 403 := by omega
    have h404 : resp.status ≠ 404 := by omega
    simp [runRequest, getAuthHeaders, hc, ht, handleResponse, h429, h401, h403,
      h404, hok, h204, hct, hp]
  · intro hok h204 hct
    have hb : 200 ≤ resp.status ∧ resp.status < 300 := by
      simpa [statusOk, Bool.and_eq_true, decide_eq_true_eq] using hok
    have h429 : resp.status ≠ 429 := by omega
    have h401 : resp.status ≠ 401 := by omega
    have h403 : resp.status ≠ 403 := by omega
    have h404 : resp.status ≠ 404 := by omega
    simp [runRequest, getAuthHeaders, hc, ht, handleResponse, h429, h401, h403,
      h404, hok, h204, hct]

theorem c7_success_shaping_witness :
    ("tok" ≠ "" ∧ (⟨204, [], ""⟩ : HttpResponse).status = 204)
    ∧ (runRequest ⟨some "tok", none⟩ ⟨"/files/f1", "DELETE", [], none, false⟩
          ⟨204, [], ""⟩).1 = .ok .empty :=
  ⟨⟨by decide, rfl⟩,
    (c7_success_shaping ⟨some "tok", none⟩ "tok" rfl (by decide)
        ⟨"/files/f1", "DELETE", [], none, false⟩ ⟨204, [], ""⟩).1 rfl⟩

/-- C8: any other non-2xx status (not 429/401/403/404) yields the generic
ApiError carrying that status and a message extracted by a total function:
`error.message` when present as a non-empty string, else the `message` field,
else — including for any unparsable body — the generic `API error: <status>`
string; the error-handling path itself never fails. -/
theorem c8_generic_api_error (c : TenantCredentials) (t : String)
    (hc : c.accessToken = some t) (ht : t ≠ "") (r : DriveRequest)
    (resp : HttpResponse) (h429 : resp.status ≠ 429) (h401 : resp.status ≠ 401)
    (h403 : resp.status ≠ 403) (h404 : resp.status ≠ 404)
    (hnok : statusOk resp.status = false) :
    (runRequest c r resp).1
      = .error (.apiError (extractApiErrorMessage resp.body resp.status) resp.status)
    ∧ (parseJson resp.body = none →
        extractApiErrorMessage resp.body resp.status
          = "API error: " ++ toString resp.status)
    ∧ (∀ j s, parseJson resp.body = some j
        → (jsGet j "error").bind (jsGet · "message") = some (.str s) → s ≠ ""
        → extractApiErrorMessage resp.body resp.status = s)
    ∧ (∀ j s, parseJson resp.body = some j
        → (jsGet j "error").bind (jsGet · "message") = none
        → jsGet j "message" = some (.str s) → s ≠ ""
        → extractApiErrorMessage resp.body resp.status = s)
    ∧ (∀ j, parseJson resp.body = some j
        → (jsGet j "error").bind (jsGet · "message") = none
        → jsGet j "message" = none
        → extractApiErrorMessage resp.body resp.status
            = "API error: " ++ toString resp.status) := by
  refine ⟨?_, ?_, ?_, ?_, ?_⟩
  · simp [runRequest, getAuthHeaders, hc, ht, handleResponse, h429, h401, h403,
      h404, hnok]
  · intro hp
    simp [extractApiErrorMessage, hp]
  · intro j s hp hpath hs
    simp [extractApiErrorMessage, hp, hpath, jsOrElse, jsTruthy, jsToString, hs]
  · intro j s hp hpath hmsg hs
    simp [extractApiErrorMessage, hp, hpath, hmsg, jsOrElse, jsTruthy, jsToString, hs]
  · intro j hp hpath hmsg
    simp [extractApiErrorMessage, hp, hpath, hmsg, jsOrElse, jsToString]

theorem c8_generic_api_error_witness :
    ("tok" ≠ ""
      ∧ (⟨500, [], "oops"⟩ : HttpResponse).status ≠ 429
      ∧ (⟨500, [], "oops"⟩ : HttpResponse).status ≠ 401
      ∧ (⟨500, [], "oops"⟩ : HttpResponse).status ≠ 403
      ∧ (⟨500, [], "oops"⟩ : HttpResponse).status ≠ 404
      ∧ statusOk (⟨500, [], "oops"⟩ : HttpResponse).status = false)
    ∧ (runRequest ⟨some "tok", none⟩ ⟨"/files", "GET", [], none, false⟩
          ⟨500, [], "oops"⟩).1
        = .error (.apiError (extractApiErrorMessage "oops" 500) 500)
    ∧ extractApiErrorMessage "oops" 500 = "API error: 500" :=
  ⟨⟨by decide, by decide, by decide, by decide, by decide, by decide⟩,
    (c8_generic_api_error ⟨some "tok", none⟩ "tok" rfl (by decide)
        ⟨"/files", "GET", [], none, false⟩ ⟨500, [], "oops"⟩ (by decide)
        (by decide) (by decide) (by decide) (by decide)).1,
    (c8_generic_api_error ⟨some "tok", none⟩ "tok" rfl (by decide)
        ⟨"/files", "GET", [], none, false⟩ ⟨500, [], "oops"⟩ (by decide)
        (by decide) (by decide) (by decide) (by decide)).2.1 rfl⟩

/-- C4: for every createFile call with non-empty inline content, the request
is the multipart upload whose body is the two delimited parts — a JSON part
that parses back to exactly the assembled metadata object and a content part
equal byte-for-byte to the supplied content — and the metadata's keys are the
name plus exactly the truthy optional fields, in insertion order. -/
theorem c4_multipart_roundtrip (p : CreateFileParams) (ctext : String)
    (hc : p.content = some ctext) (hne : ctext ≠ "") :
    (createFileRequest p).useUploadUrl = true
    ∧ (createFileRequest p).body = some
        (multipartDelimiter
          ++ "Content-Type: application/json; charset=UTF-8\r\n\r\n"
          ++ renderJson (createFileMetadata p)
          ++ multipartDelimiter
          ++ "Content-Type: " ++ jsStrOr p.mimeType "text/plain" ++ "\r\n\r\n"
          ++ ctext
          ++ multipartCloseDelim)
    ∧ parseJson (renderJson (createFileMetadata p)) = some (createFileMetadata p)
    ∧ objKeys (createFileMetadata p)
        = ["name"]
          ++ (if optStrTruthy p.mimeType then ["mimeType"] else [])
          ++ (if p.parents.isSome then ["parents"] else [])
          ++ (if optStrTruthy p.description then ["description"] else []) := by
  have htr : optStrTruthy p.content = true := by
    rw [hc]; simp [optStrTruthy, hne]
  refine ⟨?_, ?_, ?_, ?_⟩
  · simp [createFileRequest, htr]
  · simp [createFileRequest, htr, multipartBody, hc, optStrTruthy, hne]
  · exact parseJson_renderJson _ (createFileMetadata_noNum p)
  · rcases p with ⟨name, mt, pr, ds, ct⟩
    cases mt <;> cases pr <;> cases ds <;>
      simp [createFileMetadata, objKeys, optStrTruthy] <;>
      split_ifs <;> simp_all

theorem c4_multipart_roundtrip_witness :
    ((⟨"r.txt", some "text/plain", some ["root"], none, some "hi"⟩
        : CreateFileParams).content = some "hi" ∧ "hi" ≠ "")
    ∧ (createFileRequest
          ⟨"r.txt", some "text/plain", some ["root"], none, some "hi"⟩).useUploadUrl
        = true
    ∧ parseJson (renderJson (createFileMetadata
          ⟨"r.txt", some "text/plain", some ["root"], none, some "hi"⟩))
        = some (createFileMetadata
            ⟨"r.txt", some "text/plain", some ["root"], none, some "hi"⟩) :=
  ⟨⟨rfl, by decide⟩,
    (c4_multipart_roundtrip ⟨"r.txt", some "text/plain", some ["root"], none,
        some "hi"⟩ "hi" rfl (by decide)).1,
    (c4_multipart_roundtrip ⟨"r.txt", some "text/plain", some ["root"], none,
        some "hi"⟩ "hi" rfl (by decide)).2.2.1⟩

/-- C5 (counterexample): the move-file tool performs two outbound calls when
its initial metadata read succeeds, refuting "no tool makes more than one
outbound request". -/
theorem c5_counterexample :
    (moveFileHandlerCalls "f" "p" true (.ok ⟨some ["a"]⟩)).length = 2
    ∧ (moveFileHandlerCalls "f" "p" true (.ok ⟨some ["a"]⟩)).length ≠ 1 :=
  ⟨rfl, by decide⟩

/-- C5 (amended): every client call performs exactly one fetch once the
credential check passes, and each embedded tool handler makes exactly one
client call per invocation — except `googledrive_move_file`, which makes two
(a metadata read, then the update) when the read succeeds, and one when it
throws. -/
theorem c5_single_request :
    (∀ (c : TenantCredentials) (t : String), c.accessToken = some t → t ≠ "" →
      ∀ (r : DriveRequest) (resp : HttpResponse),
        ((runRequest c r resp).2).length = 1)
    ∧ (∀ (fileId newParentId : String) (rm : Bool) (f : DriveFileParents),
        (moveFileHandlerCalls fileId newParentId rm (.ok f)).length = 2)
    ∧ (∀ (fileId newParentId : String) (rm : Bool) (e : DriveError),
        (moveFileHandlerCalls fileId newParentId rm (.error e)).length = 1)
    ∧ (∀ (name : String) (parentId : Option String),
        (createFolderHandlerCalls name parentId).length = 1)
    ∧ (∀ (folderId : String) (p : FolderContentsParams),
        (listFolderContentsHandlerCalls folderId p).length = 1)
    ∧ (∀ fileId : String, (deleteFileHandlerCalls fileId).length = 1) := by
  refine ⟨?_, ?_, ?_, ?_, ?_, ?_⟩
  · intro c t hc ht r resp
    simp [runRequest, getAuthHeaders, hc, ht]
  · intro _ _ _ _; rfl
  · intro _ _ _ _; rfl
  · intro _ _; rfl
  · intro _ _; rfl
  · intro _; rfl

theorem c5_single_request_witness :
    ("tok" ≠ "")
    ∧ ((runRequest ⟨some "tok", none⟩ ⟨"/about", "GET", [], none, false⟩
          ⟨200, [], ""⟩).2).length = 1
    ∧ (moveFileHandlerCalls "f" "p" true (.error .jsonSyntaxError)).length = 1 :=
  ⟨by decide,
    c5_single_request.1 ⟨some "tok", none⟩ "tok" rfl (by decide)
      ⟨"/about", "GET", [], none, false⟩ ⟨200, [], ""⟩,
    c5_single_request.2.2.1 "f" "p" true .jsonSyntaxError⟩

/-- C10: with a (non-empty) per-tenant base-URL override, multipart uploads —
createFile and updateFile with truthy content — still target the fixed
upload base URL, which the constructor never overrides; every non-upload
request, including the same operations without content and all the embedded
read/list/delete operations, targets the override. -/
theorem c10_upload_url_fixed (c : TenantCredentials) (u : String)
    (hu : c.baseUrl = some u) (hne : u ≠ "") :
    (∀ r : DriveRequest, r.useUploadUrl = false → requestUrl c r = u ++ r.endpoint)
    ∧ (∀ r : DriveRequest, r.useUploadUrl = true
        → requestUrl c r = UPLOAD_BASE_URL ++ r.endpoint)
    ∧ (∀ p : CreateFileParams, optStrTruthy p.content = true →
        (createFileRequest p).useUploadUrl = true
        ∧ requestUrl c (createFileRequest p)
            = UPLOAD_BASE_URL ++ (createFileRequest p).endpoint)
    ∧ (∀ p : CreateFileParams, optStrTruthy p.content = false →
        (createFileRequest p).useUploadUrl = false
        ∧ requestUrl c (createFileRequest p) = u ++ (createFileRequest p).endpoint)
    ∧ (∀ (fileId : String) (p : UpdateFileParams), optStrTruthy p.content = true →
        (updateFileRequest fileId p).useUploadUrl = true
        ∧ requestUrl c (updateFileRequest fileId p)
            = UPLOAD_BASE_URL ++ (updateFileRequest fileId p).endpoint)
    ∧ (∀ (fileId : String) (p : UpdateFileParams), optStrTruthy p.content = false →
        (updateFileRequest fileId p).useUploadUrl = false)
    ∧ (∀ p : ListFilesParams, (listFilesRequest p).useUploadUrl = false)
    ∧ (∀ (folderId : String) (p : FolderContentsParams),
        (listFolderContentsRequest folderId p).useUploadUrl = false)
    ∧ (∀ (fileId : String) (p : ListPermissionsParams),
        (listPermissionsRequest fileId p).useUploadUrl = false)
    ∧ (∀ (fileId : String) (fields : Option String),
        (getFileRequest fileId fields).useUploadUrl = false)
    ∧ (∀ fileId : String, (deleteFileRequest fileId).useUploadUrl = false) := by
  have hbase : clientBaseUrl c = u := by simp [clientBaseUrl, hu, hne]
  refine ⟨?_, ?_, ?_, ?_, ?_, ?_, ?_, ?_, ?_, ?_, ?_⟩
  · intro r hr; simp [requestUrl, hr, hbase]
  · intro r hr; simp [requestUrl, hr]
  · intro p hp
    refine ⟨by simp [createFileRequest, hp], ?_⟩
    simp [requestUrl, createFileRequest, hp]
  · intro p hp
    refine ⟨by simp [createFileRequest, hp], ?_⟩
    simp [requestUrl, createFileRequest, hp, hbase]
  · intro fileId p hp
    refine ⟨by simp [updateFileRequest, hp], ?_⟩
    simp [requestUrl, updateFileRequest, hp]
  · intro fileId p hp
    simp [updateFileRequest, hp]
  · intro p; rfl
  · intro folderId p; rfl
  · intro fileId p; rfl
  · intro fileId fields; rfl
  · intro fileId; rfl

theorem c10_upload_url_fixed_witness :
    ((⟨some "tok", some "https://proxy.example/drive"⟩
        : TenantCredentials).baseUrl = some "https://proxy.example/drive"
      ∧ "https://proxy.example/drive" ≠ "")
    ∧ (∀ r : DriveRequest, r.useUploadUrl = false →
        requestUrl ⟨some "tok", some "https://proxy.example/drive"⟩ r
          = "https://proxy.example/drive" ++ r.endpoint) :=
  ⟨⟨rfl, by decide⟩,
    (c10_upload_url_fixed ⟨some "tok", some "https://proxy.example/drive"⟩
        "https://proxy.example/drive" rfl (by decide)).1⟩
